import Mathlib

/-!
A verification development for the cltv-scan frontend.

The repository is a React single-page application whose only stateful core is
the mempool monitor view (`src/components/MempoolMonitor.tsx`): it owns a
single EventSource subscription handle, a connection status, and a bounded
buffer of received events.  The request/response API clients
(`src/lib/api.ts` and the parallel `src/api/client.ts`) build URLs from an
environment-selected base and perform fetches, the former with an
AbortController timeout, the latter without.  The security-scan view
(`src/components/SecurityScanner.tsx`) calls the scan endpoint with only the
block range and filters the returned alerts client-side.

This file shallowly embeds those parts: TypeScript interfaces become Lean
structures, string-union types become inductives, the monitor component's
handlers become a step function over an explicit session state (EventSource
handles are modelled as allocator-issued natural numbers together with the
set of handles not yet closed), and the fetch helpers become functions of the
network behaviour (when, if ever, the response arrives).  Browser built-ins
that are not part of the repository (JSON.parse, fetch, EventSource) are
abstracted: parsing of a stream payload is represented by data that is either
a well-formed MonitorEvent or malformed, and a fetch by the arrival time and
content of the response, if any.
-/

namespace CltvScan

/-! ## Data model, from src/types/api.ts -/

/-- Union type TimelocktDomain of src/types/api.ts. -/
inductive TimelocktDomain
  | block_height
  | unix_timestamp
deriving DecidableEq, Repr, Inhabited

/-- Union type LightningTxType of src/types/api.ts, minus its null case
(the null case is `Option.none` at use sites). -/
inductive LightningTxKind
  | commitment
  | htlc_timeout
  | htlc_success
deriving DecidableEq, Repr, Inhabited

/-- Union type LightningConfidence of src/types/api.ts. -/
inductive LightningConfidence
  | none
  | possible
  | highly_likely
deriving DecidableEq, Repr, Inhabited

/-- Union type AlertSeverity of src/types/api.ts. -/
inductive AlertSeverity
  | critical
  | warning
  | informational
deriving DecidableEq, Repr, Inhabited

/-- Union type DetectionType of src/types/api.ts. -/
inductive DetectionType
  | timelock_mixing
  | short_cltv_delta
  | htlc_clustering
  | anomalous_sequence
deriving DecidableEq, Repr, Inhabited

/-- Interface NLocktimeInfo of src/types/api.ts. -/
structure NLocktimeInfo where
  raw_value : Nat
  is_enforced : Bool
  domain : TimelocktDomain
  human_readable : String
deriving DecidableEq, Repr, Inhabited

/-- Interface SequenceInfo of src/types/api.ts. -/
structure SequenceInfo where
  input_index : Nat
  raw_hex : String
  is_final : Bool
  rbf_signaling : Bool
  relative_timelock : Option Nat
  is_lightning_sequence : Bool
  human_readable : String
deriving DecidableEq, Repr, Inhabited

/-- Interface ScriptTimelockInfo of src/types/api.ts. -/
structure ScriptTimelockInfo where
  field : String
  opcode : String
  threshold_value : Nat
  domain : TimelocktDomain
  human_readable : String
deriving DecidableEq, Repr, Inhabited

/-- Interface TimelocktSummary of src/types/api.ts. -/
structure TimelocktSummary where
  has_active_timelocks : Bool
  has_script_timelocks : Bool
  has_lightning_sequence : Bool
  timelock_types_count : Nat
deriving DecidableEq, Repr, Inhabited

/-- Interface TransactionAnalysis of src/types/api.ts. -/
structure TransactionAnalysis where
  txid : String
  nlocktime : NLocktimeInfo
  sequences : List SequenceInfo
  script_timelocks : List ScriptTimelockInfo
  summary : TimelocktSummary
deriving DecidableEq, Repr, Inhabited

/-- Interface CommitmentSignals of src/types/api.ts. -/
structure CommitmentSignals where
  locktime_match : Bool
  sequence_match : Bool
  has_anchor_outputs : Bool
  anchor_output_count : Nat
deriving DecidableEq, Repr, Inhabited

/-- Interface HtlcSignals of src/types/api.ts. -/
structure HtlcSignals where
  locktime_value : Option Nat
  has_preimage : Bool
  preimage : Option String
  script_has_cltv : Bool
  script_has_csv : Bool
deriving DecidableEq, Repr, Inhabited

/-- Interface LightningParams of src/types/api.ts. -/
structure LightningParams where
  commitment_number : Option Nat
  htlc_output_count : Nat
  cltv_expiry : Option Nat
  csv_delays : List Nat
  preimage_revealed : Bool
  preimage : Option String
deriving DecidableEq, Repr, Inhabited

/-- Interface LightningClassification of src/types/api.ts. -/
structure LightningClassification where
  tx_type : Option LightningTxKind
  confidence : LightningConfidence
  commitment_signals : CommitmentSignals
  htlc_signals : HtlcSignals
  params : LightningParams
deriving DecidableEq, Repr, Inhabited

/-- Interface Reference of src/types/api.ts. -/
structure Reference where
  name : String
  authors : String
  year : Nat
  url : String
deriving DecidableEq, Repr, Inhabited

/-- Tagged union AlertDetails of src/types/api.ts (one constructor per
detail interface, tagged by its `type` discriminant). -/
inductive AlertDetails
  | timelock_mixing (nlocktime_domain : TimelocktDomain) (sequence_domain : TimelocktDomain)
  | short_cltv_delta (cltv_expiry : Nat) (current_height : Nat) (blocks_remaining : Nat)
  | htlc_clustering (window_start : Nat) (window_end : Nat) (count : Nat) (threshold : Nat)
  | anomalous_sequence (input_index : Nat) (sequence_value : Nat) (expected_range : String)
deriving DecidableEq, Repr, Inhabited

/-- Interface Alert of src/types/api.ts. -/
structure Alert where
  id : String
  severity : AlertSeverity
  detection_type : DetectionType
  txid : String
  input_index : Option Nat
  description : String
  details : AlertDetails
  reference : Option Reference
deriving DecidableEq, Repr, Inhabited

/-- Interface MonitorEvent of src/types/api.ts. -/
structure MonitorEvent where
  txid : String
  timelock : TransactionAnalysis
  lightning : LightningClassification
  alerts : List Alert
deriving DecidableEq, Repr, Inhabited

/-- Interface ScanResponse of src/types/api.ts. -/
structure ScanResponse where
  start_height : Nat
  end_height : Nat
  current_tip : Nat
  total_alerts : Nat
  alerts : List Alert
deriving DecidableEq, Repr, Inhabited

/-- The TypeScript AlertSeverity values are strings; this is the string a
severity constructor denotes. -/
def sevString : AlertSeverity → String
  | AlertSeverity.critical => "critical"
  | AlertSeverity.warning => "warning"
  | AlertSeverity.informational => "informational"

/-- The string a DetectionType constructor denotes. -/
def dtString : DetectionType → String
  | DetectionType.timelock_mixing => "timelock_mixing"
  | DetectionType.short_cltv_delta => "short_cltv_delta"
  | DetectionType.htlc_clustering => "htlc_clustering"
  | DetectionType.anomalous_sequence => "anomalous_sequence"

/-! ## Severity derivation, from src/components/MempoolMonitor.tsx -/

/-- Function getMaxSeverity of src/components/MempoolMonitor.tsx
(lines 84-89): null on an empty alert list, otherwise critical if some alert
is critical, otherwise warning if some alert is warning, otherwise
informational. -/
def getMaxSeverity (alerts : List Alert) : Option AlertSeverity :=
  if alerts.length = 0 then none
  else if alerts.any fun a => decide (a.severity = AlertSeverity.critical) then
    some AlertSeverity.critical
  else if alerts.any fun a => decide (a.severity = AlertSeverity.warning) then
    some AlertSeverity.warning
  else some AlertSeverity.informational

/-- Ranking of severities used to state what a maximum severity means:
critical above warning above informational. -/
def sevRank : AlertSeverity → Nat
  | AlertSeverity.informational => 0
  | AlertSeverity.warning => 1
  | AlertSeverity.critical => 2

/-- The larger of two severities under `sevRank`. -/
def sevMax (a b : AlertSeverity) : AlertSeverity :=
  if sevRank a ≤ sevRank b then b else a

/-- Modelled from the spec: the maximum alert severity present among an
event's alerts (critical above warning above informational), absent when
there are zero alerts.  Stated independently of `getMaxSeverity` as a fold
with the severity order, to be compared with the source definition. -/
def maxSeveritySpec (alerts : List Alert) : Option AlertSeverity :=
  alerts.foldr
    (fun a acc =>
      match acc with
      | none => some a.severity
      | some m => some (sevMax a.severity m))
    none

/-! ## Monitor session state machine, from src/components/MempoolMonitor.tsx

The component state is `status` (useState ConnectionStatus), `events`
(useState MonitorEventDisplay[]) and `eventSourceRef` (useRef EventSource).
An EventSource is modelled as a handle number issued by an allocator
`nextHandle`; `openHandles` is the set (as a list) of handles created and not
yet closed, so EventSource.close is removal from `openHandles`.  Stream
callbacks (onopen, the tx listener, onerror) can only fire for a handle that
is still open; they appear as actions carrying the handle that fired them. -/

/-- Union type ConnectionStatus of src/components/MempoolMonitor.tsx. -/
inductive ConnectionStatus
  | disconnected
  | connected
  | error
deriving DecidableEq, Repr, Inhabited

/-- Interface MonitorEventDisplay of src/components/MempoolMonitor.tsx:
a MonitorEvent extended with the client receipt timestamp (Date.now()). -/
structure MonitorEventDisplay extends MonitorEvent where
  timestamp : Nat
deriving DecidableEq, Repr, Inhabited

/-- Constant MAX_EVENTS of src/components/MempoolMonitor.tsx. -/
def MAX_EVENTS : Nat := 200

/-- The data carried by one incoming SSE "tx" message.  JSON.parse is a
browser built-in, so the payload is abstracted to either a value that parses
to a MonitorEvent or a malformed raw string. -/
inductive StreamData
  | valid (payload : MonitorEvent)
  | malformed (raw : String)
deriving DecidableEq, Repr, Inhabited

/-- The JSON.parse step of the tx listener: a valid payload parses, a
malformed one throws (here: none). -/
def parseMonitorEvent : StreamData → Option MonitorEvent
  | StreamData.valid payload => some payload
  | StreamData.malformed _ => none

/-- The monitor view's state: React state plus the EventSource bookkeeping
(open handles and the allocator for fresh handle numbers), plus the console
error log written by the tx listener's catch block. -/
structure MonitorSession where
  status : ConnectionStatus
  events : List MonitorEventDisplay
  eventSourceRef : Option Nat
  openHandles : List Nat
  nextHandle : Nat
  consoleErrors : List String
deriving DecidableEq, Repr, Inhabited

/-- The initial component state: status 'disconnected', no events, null
ref, no EventSource created yet. -/
def initialSession : MonitorSession :=
  { status := ConnectionStatus.disconnected
    events := []
    eventSourceRef := none
    openHandles := []
    nextHandle := 0
    consoleErrors := [] }

/-- EventSource.close on handle h: h is no longer open. -/
def closeHandle (s : MonitorSession) (h : Nat) : MonitorSession :=
  { s with openHandles := s.openHandles.erase h }

/-- Function handleStart of src/components/MempoolMonitor.tsx (lines 24-62):
close the EventSource in the ref if there is one, create a new EventSource
(api.createMonitorStream — the new handle is open from creation), register
its handlers, and store it in the ref.  The status changes only later, when
the new source's onopen fires. -/
def handleStart (s : MonitorSession) : MonitorSession :=
  let s₁ :=
    match s.eventSourceRef with
    | some h => closeHandle s h
    | none => s
  let es := s₁.nextHandle
  { s₁ with
    openHandles := s₁.openHandles ++ [es]
    nextHandle := s₁.nextHandle + 1
    eventSourceRef := some es }

/-- Function handleStop of src/components/MempoolMonitor.tsx (lines 64-70):
close the EventSource in the ref if there is one, null the ref, set status
'disconnected'. -/
def handleStop (s : MonitorSession) : MonitorSession :=
  let s₁ :=
    match s.eventSourceRef with
    | some h => closeHandle s h
    | none => s
  { s₁ with eventSourceRef := none, status := ConnectionStatus.disconnected }

/-- Function handleClear of src/components/MempoolMonitor.tsx (lines 72-74):
setEvents([]). -/
def handleClear (s : MonitorSession) : MonitorSession :=
  { s with events := [] }

/-- The tx listener of handleStart (lines 39-54): parse the message data;
on success prepend the timestamped display event and truncate to MAX_EVENTS
(slice(0, MAX_EVENTS)); on parse failure log to console.error and leave the
state unchanged. -/
def onTxMessage (s : MonitorSession) (data : StreamData) (now : Nat) : MonitorSession :=
  match parseMonitorEvent data with
  | some payload =>
      { s with
        events :=
          (({ toMonitorEvent := payload, timestamp := now } : MonitorEventDisplay)
            :: s.events).take MAX_EVENTS }
  | none =>
      { s with consoleErrors := s.consoleErrors ++ ["Failed to parse SSE event:"] }

/-- The useEffect cleanup of src/components/MempoolMonitor.tsx (lines 76-82),
run on unmount: close the EventSource in the ref if there is one.  It touches
nothing else. -/
def unmountCleanup (s : MonitorSession) : MonitorSession :=
  match s.eventSourceRef with
  | some h => closeHandle s h
  | none => s

/-- The events that can happen to a monitor session: the three button
handlers, the three stream callbacks (each fires on the open handle it was
registered on), and unmount. -/
inductive MonitorAction
  | start
  | stop
  | clear
  | streamOpen (h : Nat)
  | streamMessage (h : Nat) (data : StreamData) (now : Nat)
  | streamError (h : Nat)
  | unmount
deriving DecidableEq, Repr, Inhabited

/-- One step of the monitor session.  A stream callback for a handle that is
no longer open does nothing (a closed EventSource delivers no events).
onopen (line 35-37) sets status 'connected'; onerror (lines 56-59) sets
status 'error' and closes the EventSource it was registered on (the ref is
not cleared). -/
def step (s : MonitorSession) : MonitorAction → MonitorSession
  | MonitorAction.start => handleStart s
  | MonitorAction.stop => handleStop s
  | MonitorAction.clear => handleClear s
  | MonitorAction.streamOpen h =>
      if h ∈ s.openHandles then { s with status := ConnectionStatus.connected } else s
  | MonitorAction.streamMessage h data now =>
      if h ∈ s.openHandles then onTxMessage s data now else s
  | MonitorAction.streamError h =>
      if h ∈ s.openHandles then
        { closeHandle s h with status := ConnectionStatus.error }
      else s
  | MonitorAction.unmount => unmountCleanup s

/-- Run a list of actions from the initial session. -/
def run (acts : List MonitorAction) : MonitorSession :=
  acts.foldl step initialSession

/-- A session state the component can actually be in. -/
def Reachable (s : MonitorSession) : Prop :=
  ∃ acts : List MonitorAction, run acts = s

/-- The session invariant: the open handles are exactly the referenced
EventSource or nothing (never two), every open handle was issued by the
allocator, and the event buffer is within its capacity. -/
def SessionInv (s : MonitorSession) : Prop :=
  (s.openHandles = [] ∨ ∃ h, s.eventSourceRef = some h ∧ s.openHandles = [h]) ∧
  (∀ h ∈ s.openHandles, h < s.nextHandle) ∧
  s.events.length ≤ MAX_EVENTS

/-! ## API client, from src/lib/api.ts

fetch is a browser built-in; a request's network behaviour is abstracted as
`arrival : Option (Nat × HttpResponse)` — none when no response ever
arrives, some (t, r) when response r arrives t milliseconds after the
request went out.  URLSearchParams serialisation is modelled as
key=value pairs joined by ampersands; the parameter values the client passes
(decimal numbers and fixed identifier words) are unchanged by URL encoding. -/

/-- What fetchJson observes of a response: Response.ok, status, statusText
and the body text (also the JSON source on the success path). -/
structure HttpResponse where
  ok : Bool
  status : Nat
  statusText : String
  body : String
deriving DecidableEq, Repr, Inhabited

/-- How a lib/api.ts call ends when it does not succeed: either the
AbortController fired after the timeout elapsed (the caller sees the abort
exception of the timed-out request), or an ApiError built from a non-ok
response (message, status, response body) as in lines 34-41. -/
inductive ApiFailure
  | aborted
  | apiError (message : String) (status : Nat) (response : String)
deriving DecidableEq, Repr, Inhabited

/-- Constant DEFAULT_TIMEOUT_MS of src/lib/api.ts (line 24). -/
def DEFAULT_TIMEOUT_MS : Nat := 120000

/-- Function fetchJson of src/lib/api.ts (lines 26-45): start a timer for
timeoutMs (the default when the option is absent) that aborts the request;
if the response has not arrived strictly before the timer fires, the call
ends aborted.  A response that arrives in time and is not ok raises ApiError
with the body text (or "HTTP status: statusText" when the body is empty);
an ok response yields its body. -/
def fetchJson (url : String) (timeoutMs? : Option Nat)
    (arrival : Option (Nat × HttpResponse)) : Except ApiFailure String :=
  let _ := url
  let timeoutMs := timeoutMs?.getD DEFAULT_TIMEOUT_MS
  match arrival with
  | none => Except.error ApiFailure.aborted
  | some (t, r) =>
      if timeoutMs ≤ t then Except.error ApiFailure.aborted
      else if r.ok then Except.ok r.body
      else
        Except.error (ApiFailure.apiError
          (if r.body = "" then "HTTP " ++ toString r.status ++ ": " ++ r.statusText
           else r.body)
          r.status r.body)

/-- Constant API_BASE_URL of src/lib/api.ts (line 11):
import.meta.env.VITE_API_URL when set, empty string when unset. -/
def API_BASE_URL (viteApiUrl : Option String) : String :=
  viteApiUrl.getD ""

/-- URLSearchParams.toString for the pairs the client sets, in insertion
order. -/
def urlParamsString (ps : List (String × String)) : String :=
  String.intercalate "&" (ps.map fun p => p.1 ++ "=" ++ p.2)

/-- Union type of the filter option of api.getBlock. -/
inductive BlockFilter
  | timelocks
  | alerts
  | all
deriving DecidableEq, Repr, Inhabited

/-- The string a BlockFilter denotes. -/
def blockFilterString : BlockFilter → String
  | BlockFilter.timelocks => "timelocks"
  | BlockFilter.alerts => "alerts"
  | BlockFilter.all => "all"

/-- Options of api.getBlock (src/lib/api.ts lines 60-67). -/
structure BlockOptions where
  filter : Option BlockFilter := none
  offset : Option Nat := none
  limit : Option Nat := none
deriving DecidableEq, Repr, Inhabited

/-- Options of api.scan (src/lib/api.ts lines 85-90).  The TypeScript field
named end is a Lean keyword, hence the quoted field name. -/
structure ScanOptions where
  start : Nat
  «end» : Option Nat := none
  severity : Option AlertSeverity := none
  detection_type : Option DetectionType := none
deriving DecidableEq, Repr, Inhabited

/-- Options of api.lightning (src/lib/api.ts lines 105-108). -/
structure LightningOptions where
  start : Nat
  «end» : Option Nat := none
deriving DecidableEq, Repr, Inhabited

/-- Union type of the min_severity option of api.createMonitorStream. -/
inductive MinSeverity
  | info
  | warning
  | critical
deriving DecidableEq, Repr, Inhabited

/-- The string a MinSeverity denotes. -/
def minSeverityString : MinSeverity → String
  | MinSeverity.info => "info"
  | MinSeverity.warning => "warning"
  | MinSeverity.critical => "critical"

/-- Options of api.createMonitorStream (src/lib/api.ts lines 121-124). -/
structure MonitorStreamOptions where
  interval : Option Nat := none
  min_severity : Option MinSeverity := none
deriving DecidableEq, Repr, Inhabited

/-- URL of api.getTransaction (line 53). -/
def getTransactionUrl (env : Option String) (txid : String) : String :=
  API_BASE_URL env ++ "/api/tx/" ++ txid

/-- Query pairs set by api.getBlock (lines 68-71), in insertion order. -/
def blockParams (o : BlockOptions) : List (String × String) :=
  (match o.filter with
   | some f => [("filter", blockFilterString f)]
   | none => []) ++
  (match o.offset with
   | some n => [("offset", toString n)]
   | none => []) ++
  (match o.limit with
   | some n => [("limit", toString n)]
   | none => [])

/-- URL of api.getBlock (lines 73-74): query string appended after a
question mark only when non-empty. -/
def getBlockUrl (env : Option String) (height : Nat) (o : BlockOptions) : String :=
  let query := urlParamsString (blockParams o)
  API_BASE_URL env ++ "/api/block/" ++ toString height ++
    (if query = "" then "" else "?" ++ query)

/-- Query pairs set by api.scan (lines 91-95): start always, then end,
severity, detection_type when present. -/
def scanParams (o : ScanOptions) : List (String × String) :=
  [("start", toString o.start)] ++
  (match o.«end» with
   | some e => [("end", toString e)]
   | none => []) ++
  (match o.severity with
   | some s => [("severity", sevString s)]
   | none => []) ++
  (match o.detection_type with
   | some d => [("detection_type", dtString d)]
   | none => [])

/-- URL of api.scan (line 97). -/
def scanUrl (env : Option String) (o : ScanOptions) : String :=
  API_BASE_URL env ++ "/api/scan?" ++ urlParamsString (scanParams o)

/-- Query pairs set by api.lightning (lines 109-111). -/
def lightningParams (o : LightningOptions) : List (String × String) :=
  [("start", toString o.start)] ++
  (match o.«end» with
   | some e => [("end", toString e)]
   | none => [])

/-- URL of api.lightning (line 113). -/
def lightningUrl (env : Option String) (o : LightningOptions) : String :=
  API_BASE_URL env ++ "/api/lightning?" ++ urlParamsString (lightningParams o)

/-- Query pairs set by api.createMonitorStream (lines 125-127). -/
def monitorStreamParams (o : MonitorStreamOptions) : List (String × String) :=
  (match o.interval with
   | some n => [("interval", toString n)]
   | none => []) ++
  (match o.min_severity with
   | some m => [("min_severity", minSeverityString m)]
   | none => [])

/-- URL of the EventSource opened by api.createMonitorStream
(lines 129-132). -/
def monitorStreamUrl (env : Option String) (o : MonitorStreamOptions) : String :=
  let query := urlParamsString (monitorStreamParams o)
  API_BASE_URL env ++ "/api/monitor" ++ (if query = "" then "" else "?" ++ query)

/-- api.getTransaction (lines 52-54): fetchJson of the tx URL with no
timeout option, so the 120 s default applies. -/
def apiGetTransaction (env : Option String) (txid : String)
    (arrival : Option (Nat × HttpResponse)) : Except ApiFailure String :=
  fetchJson (getTransactionUrl env txid) none arrival

/-- api.getBlock (lines 60-77): fetchJson of the block URL with an explicit
120000 ms timeout. -/
def apiGetBlock (env : Option String) (height : Nat) (o : BlockOptions)
    (arrival : Option (Nat × HttpResponse)) : Except ApiFailure String :=
  fetchJson (getBlockUrl env height o) (some 120000) arrival

/-- api.scan (lines 85-99): fetchJson of the scan URL with no timeout
option, so the 120 s default applies. -/
def apiScan (env : Option String) (o : ScanOptions)
    (arrival : Option (Nat × HttpResponse)) : Except ApiFailure String :=
  fetchJson (scanUrl env o) none arrival

/-- api.lightning (lines 105-115): fetchJson of the lightning URL with no
timeout option, so the 120 s default applies. -/
def apiLightning (env : Option String) (o : LightningOptions)
    (arrival : Option (Nat × HttpResponse)) : Except ApiFailure String :=
  fetchJson (lightningUrl env o) none arrival

/-! ## The parallel API client, from src/api/client.ts -/

/-- Constant BASE of src/api/client.ts (line 12):
import.meta.env.VITE_API_URL when set, "http://localhost:3001" when unset. -/
def clientBASE (viteApiUrl : Option String) : String :=
  viteApiUrl.getD "http://localhost:3001"

/-- How a src/api/client.ts call ends.  Its get helper performs fetch with
no AbortController and no timer, so when no response ever arrives the
promise simply stays pending — there is no branch that settles it. -/
inductive ClientOutcome
  | pending
  | resolved (body : String)
  | rejected (message : String)
deriving DecidableEq, Repr, Inhabited

/-- Function get of src/api/client.ts (lines 14-21): fetch with no signal
and no timer.  A response that arrives and is not ok rejects with
"status: body text"; an ok response resolves with its body; no response
means the call never settles, whatever the elapsed time. -/
def clientGet (url : String) (arrival : Option (Nat × HttpResponse)) : ClientOutcome :=
  let _ := url
  match arrival with
  | none => ClientOutcome.pending
  | some (_, r) =>
      if r.ok then ClientOutcome.resolved r.body
      else ClientOutcome.rejected (toString r.status ++ ": " ++ r.body)

/-- URL path of getTx of src/api/client.ts (lines 24-26). -/
def clientGetTxUrl (env : Option String) (txid : String) : String :=
  clientBASE env ++ "/api/tx/" ++ txid.trim

/-- getTx of src/api/client.ts: get of the tx path. -/
def clientGetTx (env : Option String) (txid : String)
    (arrival : Option (Nat × HttpResponse)) : ClientOutcome :=
  clientGet (clientGetTxUrl env txid) arrival

/-- URL of getBlock of src/api/client.ts (lines 35-45). -/
def clientGetBlockUrl (env : Option String) (height : Nat) (o : BlockOptions) : String :=
  let qs := urlParamsString (blockParams o)
  clientBASE env ++ "/api/block/" ++ toString height ++
    (if qs = "" then "" else "?" ++ qs)

/-- getBlock of src/api/client.ts: get of the block path.  It performs a
plain fetch through clientGet — no abort, no timeout. -/
def clientGetBlock (env : Option String) (height : Nat) (o : BlockOptions)
    (arrival : Option (Nat × HttpResponse)) : ClientOutcome :=
  clientGet (clientGetBlockUrl env height o) arrival

/-! ## Security scanner view, from src/components/SecurityScanner.tsx -/

/-- The scan request handleScan performs (lines 142-143): api.scan with only
the parsed start and optional end — the severity and detection-type filter
selections are not forwarded. -/
def handleScanOptions (startNum : Nat) (endNum : Option Nat) : ScanOptions :=
  { start := startNum, «end» := endNum }

/-- The memoised filtered list (lines 152-158): the response's alerts,
narrowed to the selected severity when the severity filter is not "all",
then to the selected detection type when the type filter is not "all". -/
def filteredAlerts (data : Option ScanResponse)
    (severityFilter detectionFilter : String) : List Alert :=
  match data with
  | none => []
  | some d =>
      let result := d.alerts
      let result :=
        if severityFilter ≠ "all" then
          result.filter fun a => decide (sevString a.severity = severityFilter)
        else result
      let result :=
        if detectionFilter ≠ "all" then
          result.filter fun a => decide (dtString a.detection_type = detectionFilter)
        else result
      result

/-! ## Helper lemmas -/

/-- The display event built from one delivered (payload, receipt time)
pair. -/
def displayOf (m : MonitorEvent × Nat) : MonitorEventDisplay :=
  { toMonitorEvent := m.1, timestamp := m.2 }

/-- A concrete monitor event for instantiating the universally quantified
theorems (all fields at their defaults). -/
def sampleEvent : MonitorEvent := default

/-- The session right after the first click of Start Monitoring. -/
def startSession : MonitorSession := step initialSession MonitorAction.start

/-- A list of 201 deliveries of sampleEvent at receipt times 0..200 — one
more than the buffer capacity. -/
def manyMsgs : List (MonitorEvent × Nat) :=
  (List.range 201).map fun i => (sampleEvent, i)

/-- A concrete ok response for instantiating the fetch theorems. -/
def lateOkResponse : HttpResponse :=
  { ok := true, status := 200, statusText := "OK", body := "scan-body" }

theorem take_append_take {α : Type} (A B : List α) (n : Nat) :
    (A ++ B.take n).take n = (A ++ B).take n := by
  rw [List.take_append_eq_append_take, List.take_append_eq_append_take, List.take_take]
  exact congrArg (A.take n ++ B.take ·) (Nat.min_eq_left (Nat.sub_le n A.length))

theorem foldl_prepend_take (msgs : List (MonitorEvent × Nat))
    (init : List MonitorEventDisplay) (hInit : init.length ≤ MAX_EVENTS) :
    msgs.foldl (fun evs m => (displayOf m :: evs).take MAX_EVENTS) init
      = ((msgs.map displayOf).reverse ++ init).take MAX_EVENTS := by
  induction msgs generalizing init with
  | nil => simpa using (List.take_of_length_le hInit).symm
  | cons m rest ih =>
      rw [List.foldl_cons, ih ((displayOf m :: init).take MAX_EVENTS)
        (List.length_take_le MAX_EVENTS _), take_append_take]
      simp

theorem streamMessage_valid_step (s : MonitorSession) (h : Nat)
    (hmem : h ∈ s.openHandles) (payload : MonitorEvent) (now : Nat) :
    step s (MonitorAction.streamMessage h (StreamData.valid payload) now)
      = { s with events := (displayOf (payload, now) :: s.events).take MAX_EVENTS } := by
  simp [step, hmem, onTxMessage, parseMonitorEvent, displayOf]

theorem foldl_streamMessage_events (h : Nat) (msgs : List (MonitorEvent × Nat)) :
    ∀ s : MonitorSession, h ∈ s.openHandles →
      (msgs.foldl
          (fun t m => step t (MonitorAction.streamMessage h (StreamData.valid m.1) m.2))
          s).events
        = msgs.foldl (fun evs m => (displayOf m :: evs).take MAX_EVENTS) s.events := by
  induction msgs with
  | nil => intro s _; rfl
  | cons m rest ih =>
      intro s hmem
      rw [List.foldl_cons, List.foldl_cons, streamMessage_valid_step s h hmem m.1 m.2]
      exact ih _ hmem

theorem handleStart_openHandles (s : MonitorSession)
    (hH : s.openHandles = [] ∨ ∃ h, s.eventSourceRef = some h ∧ s.openHandles = [h]) :
    (handleStart s).openHandles = [s.nextHandle] := by
  unfold handleStart closeHandle
  rcases hH with hE | ⟨h, hRef, hO⟩
  · cases hRefc : s.eventSourceRef <;> simp [hRefc, hE]
  · simp [hRef, hO]

theorem handleStart_fields (s : MonitorSession) :
    (handleStart s).eventSourceRef = some s.nextHandle ∧
    (handleStart s).nextHandle = s.nextHandle + 1 ∧
    (handleStart s).events = s.events ∧
    (handleStart s).status = s.status := by
  unfold handleStart closeHandle
  cases hRefc : s.eventSourceRef <;> simp [hRefc]

theorem handleStop_fields (s : MonitorSession) :
    (handleStop s).events = s.events ∧ (handleStop s).nextHandle = s.nextHandle := by
  unfold handleStop closeHandle
  cases hRefc : s.eventSourceRef <;> simp [hRefc]

theorem handleStop_openHandles (s : MonitorSession)
    (hH : s.openHandles = [] ∨ ∃ h, s.eventSourceRef = some h ∧ s.openHandles = [h]) :
    (handleStop s).openHandles = [] := by
  unfold handleStop closeHandle
  rcases hH with hE | ⟨h, hRef, hO⟩
  · cases hRefc : s.eventSourceRef <;> simp [hRefc, hE]
  · simp [hRef, hO]

theorem unmountCleanup_openHandles (s : MonitorSession)
    (hH : s.openHandles = [] ∨ ∃ h, s.eventSourceRef = some h ∧ s.openHandles = [h]) :
    (unmountCleanup s).openHandles = [] := by
  unfold unmountCleanup closeHandle
  rcases hH with hE | ⟨h, hRef, hO⟩
  · cases hRefc : s.eventSourceRef <;> simp [hRefc, hE]
  · simp [hRef, hO]

theorem unmountCleanup_fields (s : MonitorSession) :
    (unmountCleanup s).status = s.status ∧ (unmountCleanup s).events = s.events ∧
    (unmountCleanup s).eventSourceRef = s.eventSourceRef := by
  unfold unmountCleanup closeHandle
  cases hRefc : s.eventSourceRef <;> simp [hRefc]

theorem sessionInv_step (s : MonitorSession) (a : MonitorAction) (hs : SessionInv s) :
    SessionInv (step s a) := by
  obtain ⟨hH, hFresh, hLen⟩ := hs
  cases a with
  | start =>
      obtain ⟨hRef, hNext, hEv, -⟩ := handleStart_fields s
      have hOpen := handleStart_openHandles s hH
      show SessionInv (handleStart s)
      refine ⟨Or.inr ⟨s.nextHandle, hRef, hOpen⟩, ?_, ?_⟩
      · intro h hmem
        rw [hOpen] at hmem
        rw [hNext]
        simp at hmem
        omega
      · rw [hEv]; exact hLen
  | stop =>
      obtain ⟨hEv, -⟩ := handleStop_fields s
      have hOpen := handleStop_openHandles s hH
      show SessionInv (handleStop s)
      refine ⟨Or.inl hOpen, ?_, ?_⟩
      · rw [hOpen]; intro h hmem; cases hmem
      · rw [hEv]; exact hLen
  | clear =>
      show SessionInv (handleClear s)
      exact ⟨hH, hFresh, by simp [handleClear, MAX_EVENTS]⟩
  | streamOpen h =>
      by_cases hmem : h ∈ s.openHandles
      · have : step s (MonitorAction.streamOpen h)
            = { s with status := ConnectionStatus.connected } := by simp [step, hmem]
        rw [this]; exact ⟨hH, hFresh, hLen⟩
      · have : step s (MonitorAction.streamOpen h) = s := by simp [step, hmem]
        rw [this]; exact ⟨hH, hFresh, hLen⟩
  | streamMessage h data now =>
      by_cases hmem : h ∈ s.openHandles
      · cases data with
        | valid payload =>
            rw [streamMessage_valid_step s h hmem payload now]
            exact ⟨hH, hFresh, List.length_take_le MAX_EVENTS _⟩
        | malformed raw =>
            have : step s (MonitorAction.streamMessage h (StreamData.malformed raw) now)
                = { s with consoleErrors :=
                      s.consoleErrors ++ ["Failed to parse SSE event:"] } := by
              simp [step, hmem, onTxMessage, parseMonitorEvent]
            rw [this]; exact ⟨hH, hFresh, hLen⟩
      · have : step s (MonitorAction.streamMessage h data now) = s := by
          simp [step, hmem]
        rw [this]; exact ⟨hH, hFresh, hLen⟩
  | streamError h =>
      by_cases hmem : h ∈ s.openHandles
      · have hO : s.openHandles = [h] := by
          rcases hH with hE | ⟨h', hRef, hO⟩
          · rw [hE] at hmem; cases hmem
          · rw [hO] at hmem; simp at hmem; rw [hO, hmem]
        have : step s (MonitorAction.streamError h)
            = { s with status := ConnectionStatus.error,
                       openHandles := s.openHandles.erase h } := by
          simp [step, hmem, closeHandle]
        rw [this]
        refine ⟨Or.inl ?_, ?_, hLen⟩
        · rw [hO]; simp
        · intro x hx
          exact hFresh x (List.mem_of_mem_erase hx)
      · have : step s (MonitorAction.streamError h) = s := by simp [step, hmem]
        rw [this]; exact ⟨hH, hFresh, hLen⟩
  | unmount =>
      obtain ⟨-, hEv, -⟩ := unmountCleanup_fields s
      have hOpen := unmountCleanup_openHandles s hH
      show SessionInv (unmountCleanup s)
      refine ⟨Or.inl hOpen, ?_, ?_⟩
      · rw [hOpen]; intro h hmem; cases hmem
      · rw [hEv]; exact hLen

theorem sessionInv_initial : SessionInv initialSession := by
  refine ⟨Or.inl rfl, ?_, ?_⟩
  · intro h hmem; cases hmem
  · simp [initialSession, MAX_EVENTS]

theorem run_inv (acts : List MonitorAction) : SessionInv (run acts) := by
  suffices hgen : ∀ s, SessionInv s → SessionInv (List.foldl step s acts) from
    hgen initialSession sessionInv_initial
  induction acts with
  | nil => intro s hs; exact hs
  | cons a rest ih => intro s hs; exact ih (step s a) (sessionInv_step s a hs)

theorem reachable_inv (s : MonitorSession) (hs : Reachable s) : SessionInv s := by
  obtain ⟨acts, hacts⟩ := hs
  exact hacts ▸ run_inv acts

theorem sevMax_eq_left_or_right (a b : AlertSeverity) :
    sevMax a b = a ∨ sevMax a b = b := by
  unfold sevMax
  split
  · exact Or.inr rfl
  · exact Or.inl rfl

theorem maxSeveritySpec_cons (a : Alert) (rest : List Alert) :
    maxSeveritySpec (a :: rest)
      = match maxSeveritySpec rest with
        | none => some a.severity
        | some m => some (sevMax a.severity m) := by
  rfl

theorem maxSeveritySpec_attained (alerts : List Alert) (m : AlertSeverity)
    (h : maxSeveritySpec alerts = some m) : ∃ a ∈ alerts, a.severity = m := by
  induction alerts with
  | nil => cases h
  | cons a rest ih =>
      rw [maxSeveritySpec_cons] at h
      cases hr : maxSeveritySpec rest with
      | none =>
          rw [hr] at h
          simp at h
          exact ⟨a, List.mem_cons_self a rest, h⟩
      | some m' =>
          rw [hr] at h
          simp at h
          rcases sevMax_eq_left_or_right a.severity m' with he | he
          · exact ⟨a, List.mem_cons_self a rest, he.symm.trans h⟩
          · obtain ⟨b, hb, hbm⟩ := ih (hr.trans (congrArg some (he.symm.trans h)))
            exact ⟨b, List.mem_cons_of_mem a hb, hbm⟩

theorem maxSeveritySpec_of_critical (alerts : List Alert)
    (h : alerts.any (fun a => decide (a.severity = AlertSeverity.critical)) = true) :
    maxSeveritySpec alerts = some AlertSeverity.critical := by
  induction alerts with
  | nil => cases h
  | cons a rest ih =>
      rw [maxSeveritySpec_cons]
      rw [List.any_cons] at h
      rcases Bool.or_eq_true_iff.mp h with ha | hrest
      · have ha' : a.severity = AlertSeverity.critical := of_decide_eq_true ha
        cases hr : maxSeveritySpec rest with
        | none => rw [ha']
        | some m => rw [ha']; cases m <;> simp [sevMax, sevRank]
      · rw [ih hrest]
        cases a.severity <;> simp [sevMax, sevRank]

theorem maxSeveritySpec_of_warning (alerts : List Alert)
    (hc : alerts.any (fun a => decide (a.severity = AlertSeverity.critical)) = false)
    (hw : alerts.any (fun a => decide (a.severity = AlertSeverity.warning)) = true) :
    maxSeveritySpec alerts = some AlertSeverity.warning := by
  induction alerts with
  | nil => cases hw
  | cons a rest ih =>
      rw [List.any_cons] at hc hw
      have hcSplit := Bool.or_eq_false_iff.mp hc
      have haNotCrit : a.severity ≠ AlertSeverity.critical :=
        of_decide_eq_false hcSplit.1
      rw [maxSeveritySpec_cons]
      rcases Bool.or_eq_true_iff.mp hw with ha | hrest
      · have ha' : a.severity = AlertSeverity.warning := of_decide_eq_true ha
        cases hr : maxSeveritySpec rest with
        | none => rw [ha']
        | some m =>
            have hm : m ≠ AlertSeverity.critical := by
              intro hmc
              obtain ⟨b, hb, hbm⟩ := maxSeveritySpec_attained rest m hr
              have : rest.any (fun a => decide (a.severity = AlertSeverity.critical))
                  = true :=
                List.any_eq_true.mpr ⟨b, hb, decide_eq_true (hmc ▸ hbm)⟩
              rw [this] at hcSplit
              cases hcSplit.2
            rw [ha']
            cases m with
            | critical => cases hm rfl
            | warning => simp [sevMax, sevRank]
            | informational => simp [sevMax, sevRank]
      · rw [ih hcSplit.2 hrest]
        cases hsev : a.severity with
        | critical => cases haNotCrit hsev
        | warning => simp [sevMax, sevRank]
        | informational => simp [sevMax, sevRank]

theorem maxSeveritySpec_of_informational (alerts : List Alert)
    (hne : alerts ≠ [])
    (hc : alerts.any (fun a => decide (a.severity = AlertSeverity.critical)) = false)
    (hw : alerts.any (fun a => decide (a.severity = AlertSeverity.warning)) = false) :
    maxSeveritySpec alerts = some AlertSeverity.informational := by
  induction alerts with
  | nil => cases hne rfl
  | cons a rest ih =>
      rw [List.any_cons] at hc hw
      have hcSplit := Bool.or_eq_false_iff.mp hc
      have hwSplit := Bool.or_eq_false_iff.mp hw
      have ha : a.severity = AlertSeverity.informational := by
        have h1 : a.severity ≠ AlertSeverity.critical := of_decide_eq_false hcSplit.1
        have h2 : a.severity ≠ AlertSeverity.warning := of_decide_eq_false hwSplit.1
        cases hsev : a.severity with
        | critical => cases h1 hsev
        | warning => cases h2 hsev
        | informational => rfl
      rw [maxSeveritySpec_cons]
      cases hr : maxSeveritySpec rest with
      | none => rw [ha]
      | some m =>
          have hrestne : rest ≠ [] := by
            intro he; rw [he] at hr; cases hr
          rw [ih hrestne hcSplit.2 hwSplit.2] at hr
          cases hr
          rw [ha]
          simp [sevMax, sevRank]

/-! ## Claim theorems -/

/-- C1: for every sequence of incoming stream events, every reachable
monitor session keeps the EventBuffer length at most 200 (MAX_EVENTS), and
after delivering N > 200 successfully parsed, timestamped, prepended events
on the open handle, the buffer is exactly the 200 most recently received
display events, newest first (the reversed arrival order truncated to
200). -/
theorem eventBuffer_bounded_and_keeps_recent (s : MonitorSession) (hs : Reachable s)
    (h : Nat) (hh : h ∈ s.openHandles) (msgs : List (MonitorEvent × Nat))
    (hlen : MAX_EVENTS < msgs.length) :
    s.events.length ≤ MAX_EVENTS ∧
    (msgs.foldl
        (fun t m => step t (MonitorAction.streamMessage h (StreamData.valid m.1) m.2))
        s).events
      = ((msgs.map displayOf).reverse).take MAX_EVENTS := by
  obtain ⟨-, -, hLen⟩ := reachable_inv s hs
  refine ⟨hLen, ?_⟩
  have hle : MAX_EVENTS ≤ ((msgs.map displayOf).reverse).length := by
    simpa using Nat.le_of_lt hlen
  rw [foldl_streamMessage_events h msgs s hh, foldl_prepend_take msgs s.events hLen,
    List.take_append_of_le_length hle]

set_option maxRecDepth 4000 in
/-- Witness for C1: the session right after Start, whose handle 0 is open,
fed 201 valid events. -/
theorem eventBuffer_bounded_and_keeps_recent_witness :
    startSession.events.length ≤ MAX_EVENTS ∧
    (manyMsgs.foldl
        (fun t m => step t (MonitorAction.streamMessage 0 (StreamData.valid m.1) m.2))
        startSession).events
      = ((manyMsgs.map displayOf).reverse).take MAX_EVENTS :=
  eventBuffer_bounded_and_keeps_recent startSession ⟨[MonitorAction.start], rfl⟩ 0
    (by decide) manyMsgs (by decide)

/-- C2: invoking start from any reachable state — already connected or in
error included — closes any previously open handle before the new one is
stored: afterwards the open-handle set is exactly the one newly issued
handle, no previously open handle is still open, and no reachable state
ever holds two concurrent subscriptions. -/
theorem start_closes_previous_opens_one (s : MonitorSession) (hs : Reachable s) :
    (step s MonitorAction.start).openHandles = [s.nextHandle] ∧
    (∀ h ∈ s.openHandles, h ∉ (step s MonitorAction.start).openHandles) ∧
    s.openHandles.length ≤ 1 := by
  obtain ⟨hH, hFresh, -⟩ := reachable_inv s hs
  have hOpen : (step s MonitorAction.start).openHandles = [s.nextHandle] :=
    handleStart_openHandles s hH
  refine ⟨hOpen, ?_, ?_⟩
  · intro h hmem
    rw [hOpen]
    have := hFresh h hmem
    simp
    omega
  · rcases hH with hE | ⟨h, -, hO⟩
    · rw [hE]; simp
    · rw [hO]; simp

/-- Witness for C2: starting again from the session that already started
once — its handle 0 is open beforehand and closed afterwards. -/
theorem start_closes_previous_opens_one_witness :
    (step startSession MonitorAction.start).openHandles = [startSession.nextHandle] ∧
    0 ∈ startSession.openHandles ∧
    0 ∉ (step startSession MonitorAction.start).openHandles ∧
    startSession.openHandles.length ≤ 1 :=
  ⟨(start_closes_previous_opens_one startSession ⟨[MonitorAction.start], rfl⟩).1,
   by decide,
   (start_closes_previous_opens_one startSession ⟨[MonitorAction.start], rfl⟩).2.1 0
     (by decide),
   (start_closes_previous_opens_one startSession ⟨[MonitorAction.start], rfl⟩).2.2⟩

/-- C3: the derived maximum severity of an event's alerts equals the
order-maximum of the alert severities under critical above warning above
informational, and is absent (none) exactly on an empty alert list — in
particular an event with zero alerts yields none, not informational. -/
theorem getMaxSeverity_eq_maxSeveritySpec (alerts : List Alert) :
    getMaxSeverity alerts = maxSeveritySpec alerts := by
  by_cases hlen : alerts.length = 0
  · rw [List.length_eq_zero] at hlen
    subst hlen
    rfl
  · have hne : alerts ≠ [] := by
      intro he
      rw [he] at hlen
      exact hlen rfl
    cases hc : alerts.any (fun a => decide (a.severity = AlertSeverity.critical)) with
    | true =>
        rw [maxSeveritySpec_of_critical alerts hc]
        simp [getMaxSeverity, hlen, hc]
    | false =>
        cases hw : alerts.any (fun a => decide (a.severity = AlertSeverity.warning)) with
        | true =>
            rw [maxSeveritySpec_of_warning alerts hc hw]
            simp [getMaxSeverity, hlen, hc, hw]
        | false =>
            rw [maxSeveritySpec_of_informational alerts hne hc hw]
            simp [getMaxSeverity, hlen, hc, hw]

/-- C4: a stream message whose payload fails to parse is dropped: status,
event buffer, handle reference and open handles are all unchanged — so it
never appears in the EventBuffer and never changes ConnectionState — the
step is a total function (no crash), and when it arrives on the open handle
its only effect is one console error entry (the log). -/
theorem malformed_message_dropped (s : MonitorSession) (h : Nat) (raw : String)
    (now : Nat) :
    (step s (MonitorAction.streamMessage h (StreamData.malformed raw) now)).status
        = s.status ∧
    (step s (MonitorAction.streamMessage h (StreamData.malformed raw) now)).events
        = s.events ∧
    (step s (MonitorAction.streamMessage h (StreamData.malformed raw) now)).eventSourceRef
        = s.eventSourceRef ∧
    (step s (MonitorAction.streamMessage h (StreamData.malformed raw) now)).openHandles
        = s.openHandles ∧
    (h ∈ s.openHandles →
      (step s (MonitorAction.streamMessage h (StreamData.malformed raw) now)).consoleErrors
        = s.consoleErrors ++ ["Failed to parse SSE event:"]) := by
  by_cases hmem : h ∈ s.openHandles <;>
    simp [step, hmem, onTxMessage, parseMonitorEvent]

/-- Witness for C4: a malformed payload delivered on the open handle of the
started session. -/
theorem malformed_message_dropped_witness :
    (step startSession (MonitorAction.streamMessage 0 (StreamData.malformed "oops") 5)).status
        = startSession.status ∧
    (step startSession (MonitorAction.streamMessage 0 (StreamData.malformed "oops") 5)).events
        = startSession.events ∧
    (step startSession (MonitorAction.streamMessage 0 (StreamData.malformed "oops") 5)).eventSourceRef
        = startSession.eventSourceRef ∧
    (step startSession (MonitorAction.streamMessage 0 (StreamData.malformed "oops") 5)).openHandles
        = startSession.openHandles ∧
    (step startSession (MonitorAction.streamMessage 0 (StreamData.malformed "oops") 5)).consoleErrors
        = startSession.consoleErrors ++ ["Failed to parse SSE event:"] :=
  ⟨(malformed_message_dropped startSession 0 "oops" 5).1,
   (malformed_message_dropped startSession 0 "oops" 5).2.1,
   (malformed_message_dropped startSession 0 "oops" 5).2.2.1,
   (malformed_message_dropped startSession 0 "oops" 5).2.2.2.1,
   (malformed_message_dropped startSession 0 "oops" 5).2.2.2.2 (by decide)⟩

/-- C5: when the subscription connection reports a failure on the open
handle, the session moves to status error and that handle is closed (no
open handle remains); the buffer and the handle reference are untouched,
and the step is a total function — the failure is handled inside the
onerror callback, not thrown into the hosting view. -/
theorem streamError_sets_error_closes_handle (s : MonitorSession) (hs : Reachable s)
    (h : Nat) (hh : h ∈ s.openHandles) :
    (step s (MonitorAction.streamError h)).status = ConnectionStatus.error ∧
    (step s (MonitorAction.streamError h)).openHandles = [] ∧
    (step s (MonitorAction.streamError h)).events = s.events ∧
    (step s (MonitorAction.streamError h)).eventSourceRef = s.eventSourceRef := by
  obtain ⟨hH, -, -⟩ := reachable_inv s hs
  have hO : s.openHandles = [h] := by
    rcases hH with hE | ⟨h', hRef, hO'⟩
    · rw [hE] at hh; cases hh
    · rw [hO'] at hh
      simp at hh
      rw [hO', hh]
  simp [step, hh, closeHandle, hO]

/-- Witness for C5: a connection error on the open handle of the started
session. -/
theorem streamError_sets_error_closes_handle_witness :
    (step startSession (MonitorAction.streamError 0)).status = ConnectionStatus.error ∧
    (step startSession (MonitorAction.streamError 0)).openHandles = [] ∧
    (step startSession (MonitorAction.streamError 0)).events = startSession.events ∧
    (step startSession (MonitorAction.streamError 0)).eventSourceRef
        = startSession.eventSourceRef :=
  streamError_sets_error_closes_handle startSession ⟨[MonitorAction.start], rfl⟩ 0
    (by decide)

/-- C6 counterexample: the repository also contains the request/response
API client src/api/client.ts, whose getBlock call goes through its get
helper — a plain fetch with no AbortController and no timer.  With the
response arriving only after 150 000 ms (past the 120 s bound) the call
still resolves normally instead of having been aborted, and with no
response it stays pending forever instead of reporting a timeout error.  So
not every request/response API-client call in the repository is bounded by
the 120 s timeout. -/
theorem client_getBlock_not_bounded :
    clientGetBlock none 938587 {} (some (150000, lateOkResponse))
        = ClientOutcome.resolved "scan-body" ∧
    clientGetBlock none 938587 {} none = ClientOutcome.pending := by
  exact ⟨rfl, rfl⟩

/-- C6 (amended): every call of the api object of src/lib/api.ts
(getTransaction, getBlock, scan, lightning) goes through fetchJson, which
arms an AbortController timer of 120 000 ms (the default; getBlock passes
120 000 explicitly), so whenever no response arrives within that bound the
call is aborted and surfaces to the caller as the abort of the timed-out
request. -/
theorem api_calls_abort_without_response_in_time (env : Option String)
    (txid : String) (height : Nat) (bo : BlockOptions) (so : ScanOptions)
    (lo : LightningOptions) (arrival : Option (Nat × HttpResponse))
    (hLate : ∀ t r, arrival = some (t, r) → DEFAULT_TIMEOUT_MS ≤ t) :
    apiGetTransaction env txid arrival = Except.error ApiFailure.aborted ∧
    apiGetBlock env height bo arrival = Except.error ApiFailure.aborted ∧
    apiScan env so arrival = Except.error ApiFailure.aborted ∧
    apiLightning env lo arrival = Except.error ApiFailure.aborted := by
  cases arrival with
  | none =>
      refine ⟨rfl, rfl, rfl, rfl⟩
  | some p =>
      obtain ⟨t, r⟩ := p
      have ht : DEFAULT_TIMEOUT_MS ≤ t := hLate t r rfl
      have ht' : (120000 : Nat) ≤ t := ht
      simp [apiGetTransaction, apiGetBlock, apiScan, apiLightning, fetchJson,
        DEFAULT_TIMEOUT_MS, ht']

/-- Witness for the amended C6: calls whose response never arrives. -/
theorem api_calls_abort_without_response_in_time_witness :
    apiGetTransaction none "abc" none = Except.error ApiFailure.aborted ∧
    apiGetBlock none 938587 {} none = Except.error ApiFailure.aborted ∧
    apiScan none { start := 938000 } none = Except.error ApiFailure.aborted ∧
    apiLightning none { start := 938000 } none = Except.error ApiFailure.aborted :=
  api_calls_abort_without_response_in_time none "abc" 938587 {} { start := 938000 }
    { start := 938000 } none (fun _ _ h => Option.noConfusion h)

/-- C7: unmounting the monitor view closes the active subscription handle
whatever the current state: in every reachable session, after the unmount
cleanup no handle is open, while status, buffer and ref are untouched (the
cleanup is unconditional and observes no error). -/
theorem unmount_closes_active_handle (s : MonitorSession) (hs : Reachable s) :
    (step s MonitorAction.unmount).openHandles = [] ∧
    (step s MonitorAction.unmount).status = s.status ∧
    (step s MonitorAction.unmount).events = s.events := by
  obtain ⟨hH, -, -⟩ := reachable_inv s hs
  obtain ⟨hSt, hEv, -⟩ := unmountCleanup_fields s
  exact ⟨unmountCleanup_openHandles s hH, hSt, hEv⟩

/-- Witness for C7: unmounting while the started session's handle 0 is
open. -/
theorem unmount_closes_active_handle_witness :
    (step startSession MonitorAction.unmount).openHandles = [] ∧
    (step startSession MonitorAction.unmount).status = startSession.status ∧
    (step startSession MonitorAction.unmount).events = startSession.events :=
  unmount_closes_active_handle startSession ⟨[MonitorAction.start], rfl⟩

/-- C8: the clear action empties the EventBuffer unconditionally (the event
list becomes empty, so the count becomes 0) and changes nothing else:
status, the handle reference and the set of open handles are exactly as
before. -/
theorem clear_empties_buffer_changes_nothing_else (s : MonitorSession) :
    (step s MonitorAction.clear).events = [] ∧
    (step s MonitorAction.clear).status = s.status ∧
    (step s MonitorAction.clear).eventSourceRef = s.eventSourceRef ∧
    (step s MonitorAction.clear).openHandles = s.openHandles := by
  exact ⟨rfl, rfl, rfl, rfl⟩

/-- C9 counterexample: src/api/client.ts derives its base URL from the same
environment variable but defaults to the absolute http://localhost:3001
when it is unset, so its request URL for a transaction is absolute — not a
relative /api/* path. -/
theorem client_base_not_relative_when_unset :
    clientBASE none = "http://localhost:3001" ∧
    clientGetBlockUrl none 938587 {} = "http://localhost:3001/api/block/938587" ∧
    clientGetBlockUrl none 938587 {} ≠ "/api/block/938587" := by
  refine ⟨rfl, by decide, by decide⟩

/-- C9 (amended): when the environment variable is unset, the base URL of
the src/lib/api.ts client — the one every view and the event-stream
subscription use — defaults to the empty string, so each of its request
URLs and the monitor stream URL is a relative /api/* path; the parallel
src/api/client.ts instead defaults to the absolute
http://localhost:3001. -/
theorem api_base_defaults_relative (txid : String) (height : Nat)
    (bo : BlockOptions) (so : ScanOptions) (lo : LightningOptions)
    (mo : MonitorStreamOptions) :
    API_BASE_URL none = "" ∧
    getTransactionUrl none txid = "/api/tx/" ++ txid ∧
    (∃ rest, getBlockUrl none height bo = "/api/block/" ++ rest) ∧
    (∃ rest, scanUrl none so = "/api/scan?" ++ rest) ∧
    (∃ rest, lightningUrl none lo = "/api/lightning?" ++ rest) ∧
    (∃ rest, monitorStreamUrl none mo = "/api/monitor" ++ rest) := by
  refine ⟨rfl, rfl, ⟨_, rfl⟩, ⟨_, rfl⟩, ⟨_, rfl⟩, ⟨_, rfl⟩⟩

/-- C10: the security-scan view sends only the block range to the scan
call — the options it builds carry no severity and no detection type, and
the serialised query pairs are exactly start plus the optional end — and
the displayed list is the response's alerts filtered client-side: an alert
survives exactly when the severity filter is "all" or matches its severity,
and the type filter is "all" or matches its detection type. -/
theorem scanner_sends_range_only_filters_client_side (startNum : Nat)
    (endNum : Option Nat) (d : ScanResponse) (sf df : String) :
    (handleScanOptions startNum endNum).severity = none ∧
    (handleScanOptions startNum endNum).detection_type = none ∧
    scanParams (handleScanOptions startNum endNum)
      = [("start", toString startNum)] ++
        (match endNum with
         | some e => [("end", toString e)]
         | none => []) ∧
    filteredAlerts (some d) sf df
      = d.alerts.filter fun a =>
          (decide (sf = "all") || decide (sevString a.severity = sf)) &&
          (decide (df = "all") || decide (dtString a.detection_type = df)) := by
  refine ⟨rfl, rfl, by cases endNum <;> rfl, ?_⟩
  unfold filteredAlerts
  by_cases hsf : sf = "all" <;> by_cases hdf : df = "all" <;>
    simp [hsf, hdf, List.filter_filter, Bool.and_comm]

end CltvScan
